import Mathlib

/-!
# lattica-server: handle derivation and request protocol, verified

Shallow embedding of the two Anchor programs of the repository:

* `host-programs` (`programs/host-programs/src/{types,handle,events,lib}.rs`):
  the operation registry, the SHA-256 content-addressed handle derivation
  engine, and the four stateless request entry points.
* `lending-demo` (`programs/lending-demo/src/lib.rs`): the workflow layer
  chaining binary/ternary requests (`withdraw`, `deposit`).

Bytes are `Nat` values below 256, byte strings are `List Nat`, and the hash
is a full executable SHA-256 over byte lists, so every derived handle is a
concrete 32-byte value the kernel can evaluate.
-/

namespace Sha256

/-- Two to the thirty-second power, the word modulus of SHA-256. -/
def w32 : Nat := 4294967296

/-- Right rotation of a 32-bit word by `n` places. -/
def rotr (n x : Nat) : Nat := ((x >>> n) ||| (x <<< (32 - n))) % w32

/-- Choice function of the SHA-256 round: bits of `y` where `x` is set, else `z`. -/
def ch (x y z : Nat) : Nat := (x &&& y) ^^^ ((x ^^^ 4294967295) &&& z)

/-- Majority function of the SHA-256 round. -/
def maj (x y z : Nat) : Nat := (x &&& y) ^^^ (x &&& z) ^^^ (y &&& z)

/-- Big sigma-0 mixing function. -/
def bigS0 (x : Nat) : Nat := rotr 2 x ^^^ rotr 13 x ^^^ rotr 22 x

/-- Big sigma-1 mixing function. -/
def bigS1 (x : Nat) : Nat := rotr 6 x ^^^ rotr 11 x ^^^ rotr 25 x

/-- Small sigma-0 message-schedule function. -/
def smallS0 (x : Nat) : Nat := rotr 7 x ^^^ rotr 18 x ^^^ (x >>> 3)

/-- Small sigma-1 message-schedule function. -/
def smallS1 (x : Nat) : Nat := rotr 17 x ^^^ rotr 19 x ^^^ (x >>> 10)

/-- The 64 round constants of SHA-256 (FIPS 180-4), written in decimal. -/
def K : List Nat :=
  [1116352408, 1899447441, 3049323471, 3921009573, 961987163, 1508970993,
   2453635748, 2870763221, 3624381080, 310598401, 607225278, 1426881987,
   1925078388, 2162078206, 2614888103, 3248222580, 3835390401, 4022224774,
   264347078, 604807628, 770255983, 1249150122, 1555081692, 1996064986,
   2554220882, 2821834349, 2952996808, 3210313671, 3336571891, 3584528711,
   113926993, 338241895, 666307205, 773529912, 1294757372, 1396182291,
   1695183700, 1986661051, 2177026350, 2456956037, 2730485921, 2820302411,
   3259730800, 3345764771, 3516065817, 3600352804, 4094571909, 275423344,
   430227734, 506948616, 659060556, 883997877, 958139571, 1322822218,
   1537002063, 1747873779, 1955562222, 2024104815, 2227730452, 2361852424,
   2428436474, 2756734187, 3204031479, 3329325298]

/-- The initial hash state of SHA-256, written in decimal. -/
def H0 : List Nat :=
  [1779033703, 3144134277, 1013904242, 2773480762,
   1359893119, 2600822924, 528734635, 1541459225]

/-- Number of zero bytes inserted between the 0x80 marker and the length field. -/
def padLen (len : Nat) : Nat := (119 - len % 64) % 64

/-- A natural number as 8 big-endian bytes. -/
def u64be (n : Nat) : List Nat :=
  [(n >>> 56) &&& 255, (n >>> 48) &&& 255, (n >>> 40) &&& 255, (n >>> 32) &&& 255,
   (n >>> 24) &&& 255, (n >>> 16) &&& 255, (n >>> 8) &&& 255, n &&& 255]

/-- Merkle–Damgård padding: 0x80, zeros, then the bit length, to a 64-byte multiple. -/
def pad (msg : List Nat) : List Nat :=
  msg ++ 128 :: (List.replicate (padLen msg.length) 0 ++ u64be (8 * msg.length))

/-- Group bytes into big-endian 32-bit words, four bytes at a time. -/
def bytesToWords : List Nat → List Nat
  | a :: b :: c :: d :: rest => (((a * 256 + b) * 256 + c) * 256 + d) :: bytesToWords rest
  | _ => []

/-- The four big-endian bytes of a 32-bit word. -/
def wordBytes (w : Nat) : List Nat :=
  [(w >>> 24) &&& 255, (w >>> 16) &&& 255, (w >>> 8) &&& 255, w &&& 255]

/-- Serialize a word list to bytes, big-endian per word. -/
def wordsToBytes (ws : List Nat) : List Nat := (ws.map wordBytes).flatten

/-- Extend the message schedule, keeping the words in reverse order so the
four taps sit at fixed positions 1, 6, 14 and 15. -/
def extendRev : Nat → List Nat → List Nat
  | 0, acc => acc
  | n + 1, acc =>
      let t := (smallS1 (acc.getD 1 0) + acc.getD 6 0 + smallS0 (acc.getD 14 0)
        + acc.getD 15 0) % w32
      extendRev n (t :: acc)

/-- The 64-word message schedule of one 16-word block. -/
def schedule (block : List Nat) : List Nat := (extendRev 48 block.reverse).reverse

/-- One compression round on the eight-word working state. -/
def round (st : List Nat) (kw : Nat × Nat) : List Nat :=
  match st with
  | [a, b, c, d, e, f, g, h] =>
      let t1 := (h + bigS1 e + ch e f g + kw.1 + kw.2) % w32
      let t2 := (bigS0 a + maj a b c) % w32
      [(t1 + t2) % w32, a, b, c, (d + t1) % w32, e, f, g]
  | other => other

/-- Compress one 16-word block into the hash state. -/
def compress (h : List Nat) (block : List Nat) : List Nat :=
  let st := (K.zip (schedule block)).foldl round h
  List.zipWith (fun x y => (x + y) % w32) h st

/-- Fold the compression function over the blocks; the fuel is an upper bound
on the number of blocks, recursion being structural on it. -/
def blocksGo : Nat → List Nat → List Nat → List Nat
  | 0, h, _ => h
  | fuel + 1, h, ws =>
      match ws with
      | [] => h
      | _ => blocksGo fuel (compress h (ws.take 16)) (ws.drop 16)

/-- SHA-256 of a byte string, as its 32 digest bytes. -/
def sha256 (msg : List Nat) : List Nat :=
  let ws := bytesToWords (pad msg)
  wordsToBytes (blocksGo ws.length H0 ws)

end Sha256

/-- Opaque 32-byte content-addressed identifier (`pub type Handle = [u8; 32]`). -/
abbrev Handle := List Nat

/-- Solana account address, 32 raw bytes. -/
abbrev Pubkey := List Nat

/-- Model of `solana_sha256_hasher::hashv`: SHA-256 of the concatenation of the
given byte slices. -/
def hashv (segments : List (List Nat)) : List Nat := Sha256.sha256 segments.flatten

namespace HostPrograms

/-- Unary operation registry (`types.rs`). The Rust enum carries no explicit
discriminants, so `as u8` yields the declaration position. -/
inductive Fhe16UnaryOp
  | Not
  | Abs
  | Neg
deriving DecidableEq, Fintype

/-- Binary operation registry (`types.rs`), in declaration order. -/
inductive Fhe16BinaryOp
  | And
  | Or
  | Xor
  | Add
  | Sub
  | SDiv
  | Eq
  | Neq
  | Gt
  | Ge
  | Lt
  | Le
  | Max
  | Min
  | MaxOrMin
  | Compare
  | OrVec
  | AndVec
  | XorVec
  | LShiftL
  | SMulL
  | AddPowTwo
  | SubPowTwo
  | GateTemplete
  | PrefixTemplete
  | AddPowTwoTemplete
  | OrXor
  | AndXor
deriving DecidableEq, Fintype

/-- Ternary operation registry (`types.rs`). -/
inductive Fhe16TernaryOp
  | Add3
  | Eq3
  | Maj3
  | Xor3
  | Select
deriving DecidableEq, Fintype

/-- Rust `op as u8` on `Fhe16UnaryOp`: with no explicit discriminants the cast
gives the positional value. -/
def Fhe16UnaryOp.as_u8 : Fhe16UnaryOp → Nat
  | .Not => 0
  | .Abs => 1
  | .Neg => 2

/-- Borsh (`AnchorSerialize`) discriminant byte of a `Fhe16UnaryOp` value: the
variant index. -/
def Fhe16UnaryOp.serialize_byte : Fhe16UnaryOp → Nat
  | .Not => 0
  | .Abs => 1
  | .Neg => 2

/-- Borsh (`AnchorDeserialize`) of a `Fhe16UnaryOp` discriminant byte; an
unknown byte is a deserialization error. -/
def Fhe16UnaryOp.deserialize_byte : Nat → Option Fhe16UnaryOp
  | 0 => some .Not
  | 1 => some .Abs
  | 2 => some .Neg
  | _ => none

/-- Rust `op as u8` on `Fhe16BinaryOp`: the positional value. -/
def Fhe16BinaryOp.as_u8 : Fhe16BinaryOp → Nat
  | .And => 0
  | .Or => 1
  | .Xor => 2
  | .Add => 3
  | .Sub => 4
  | .SDiv => 5
  | .Eq => 6
  | .Neq => 7
  | .Gt => 8
  | .Ge => 9
  | .Lt => 10
  | .Le => 11
  | .Max => 12
  | .Min => 13
  | .MaxOrMin => 14
  | .Compare => 15
  | .OrVec => 16
  | .AndVec => 17
  | .XorVec => 18
  | .LShiftL => 19
  | .SMulL => 20
  | .AddPowTwo => 21
  | .SubPowTwo => 22
  | .GateTemplete => 23
  | .PrefixTemplete => 24
  | .AddPowTwoTemplete => 25
  | .OrXor => 26
  | .AndXor => 27

/-- Borsh discriminant byte of a `Fhe16BinaryOp` value: the variant index. -/
def Fhe16BinaryOp.serialize_byte : Fhe16BinaryOp → Nat
  | .And => 0
  | .Or => 1
  | .Xor => 2
  | .Add => 3
  | .Sub => 4
  | .SDiv => 5
  | .Eq => 6
  | .Neq => 7
  | .Gt => 8
  | .Ge => 9
  | .Lt => 10
  | .Le => 11
  | .Max => 12
  | .Min => 13
  | .MaxOrMin => 14
  | .Compare => 15
  | .OrVec => 16
  | .AndVec => 17
  | .XorVec => 18
  | .LShiftL => 19
  | .SMulL => 20
  | .AddPowTwo => 21
  | .SubPowTwo => 22
  | .GateTemplete => 23
  | .PrefixTemplete => 24
  | .AddPowTwoTemplete => 25
  | .OrXor => 26
  | .AndXor => 27

/-- Borsh deserialization of a `Fhe16BinaryOp` discriminant byte. -/
def Fhe16BinaryOp.deserialize_byte : Nat → Option Fhe16BinaryOp
  | 0 => some .And
  | 1 => some .Or
  | 2 => some .Xor
  | 3 => some .Add
  | 4 => some .Sub
  | 5 => some .SDiv
  | 6 => some .Eq
  | 7 => some .Neq
  | 8 => some .Gt
  | 9 => some .Ge
  | 10 => some .Lt
  | 11 => some .Le
  | 12 => some .Max
  | 13 => some .Min
  | 14 => some .MaxOrMin
  | 15 => some .Compare
  | 16 => some .OrVec
  | 17 => some .AndVec
  | 18 => some .XorVec
  | 19 => some .LShiftL
  | 20 => some .SMulL
  | 21 => some .AddPowTwo
  | 22 => some .SubPowTwo
  | 23 => some .GateTemplete
  | 24 => some .PrefixTemplete
  | 25 => some .AddPowTwoTemplete
  | 26 => some .OrXor
  | 27 => some .AndXor
  | _ => none

/-- Rust `op as u8` on `Fhe16TernaryOp`: the positional value. -/
def Fhe16TernaryOp.as_u8 : Fhe16TernaryOp → Nat
  | .Add3 => 0
  | .Eq3 => 1
  | .Maj3 => 2
  | .Xor3 => 3
  | .Select => 4

/-- Borsh discriminant byte of a `Fhe16TernaryOp` value: the variant index. -/
def Fhe16TernaryOp.serialize_byte : Fhe16TernaryOp → Nat
  | .Add3 => 0
  | .Eq3 => 1
  | .Maj3 => 2
  | .Xor3 => 3
  | .Select => 4

/-- Borsh deserialization of a `Fhe16TernaryOp` discriminant byte. -/
def Fhe16TernaryOp.deserialize_byte : Nat → Option Fhe16TernaryOp
  | 0 => some .Add3
  | 1 => some .Eq3
  | 2 => some .Maj3
  | 3 => some .Xor3
  | 4 => some .Select
  | _ => none

/-- ASCII bytes of `b"FHE16_UNARY_V1"` (`handle.rs`). -/
def HANDLE_DOMAIN_UNARY : List Nat :=
  [70, 72, 69, 49, 54, 95, 85, 78, 65, 82, 89, 95, 86, 49]

/-- ASCII bytes of `b"FHE16_BINARY_V1"` (`handle.rs`). -/
def HANDLE_DOMAIN_BINARY : List Nat :=
  [70, 72, 69, 49, 54, 95, 66, 73, 78, 65, 82, 89, 95, 86, 49]

/-- ASCII bytes of `b"FHE16_TERNARY_V1"` (`handle.rs`). -/
def HANDLE_DOMAIN_TERNARY : List Nat :=
  [70, 72, 69, 49, 54, 95, 84, 69, 82, 78, 65, 82, 89, 95, 86, 49]

/-- Function `derive_unary_handle` of `handle.rs`. -/
def derive_unary_handle (op : Fhe16UnaryOp) (input : Handle) (program_id : Pubkey) : Handle :=
  hashv [HANDLE_DOMAIN_UNARY, program_id, [op.as_u8], input]

/-- Function `derive_binary_handle` of `handle.rs`. -/
def derive_binary_handle (op : Fhe16BinaryOp) (lhs rhs : Handle) (program_id : Pubkey) : Handle :=
  hashv [HANDLE_DOMAIN_BINARY, program_id, [op.as_u8], lhs, rhs]

/-- Function `derive_ternary_handle` of `handle.rs`. -/
def derive_ternary_handle (op : Fhe16TernaryOp) (a b c : Handle) (program_id : Pubkey) :
    Handle :=
  hashv [HANDLE_DOMAIN_TERNARY, program_id, [op.as_u8], a, b, c]

/-- The exact byte string handed to SHA-256 by `derive_unary_handle`. -/
def derive_unary_message (op : Fhe16UnaryOp) (input : Handle) (program_id : Pubkey) :
    List Nat :=
  HANDLE_DOMAIN_UNARY ++ program_id ++ [op.as_u8] ++ input

/-- The exact byte string handed to SHA-256 by `derive_binary_handle`. -/
def derive_binary_message (op : Fhe16BinaryOp) (lhs rhs : Handle) (program_id : Pubkey) :
    List Nat :=
  HANDLE_DOMAIN_BINARY ++ program_id ++ [op.as_u8] ++ lhs ++ rhs

/-- The exact byte string handed to SHA-256 by `derive_ternary_handle`. -/
def derive_ternary_message (op : Fhe16TernaryOp) (a b c : Handle) (program_id : Pubkey) :
    List Nat :=
  HANDLE_DOMAIN_TERNARY ++ program_id ++ [op.as_u8] ++ a ++ b ++ c

/-- Record `InputHandleRegistered` of `events.rs`. -/
structure InputHandleRegistered where
  caller : Pubkey
  handle : Handle
  client_tag : List Nat
deriving DecidableEq

/-- Record `Fhe16UnaryOpRequested` of `events.rs`. -/
structure Fhe16UnaryOpRequested where
  caller : Pubkey
  op : Fhe16UnaryOp
  input_handle : Handle
  result_handle : Handle
deriving DecidableEq

/-- Record `Fhe16BinaryOpRequested` of `events.rs`. -/
structure Fhe16BinaryOpRequested where
  caller : Pubkey
  op : Fhe16BinaryOp
  lhs_handle : Handle
  rhs_handle : Handle
  result_handle : Handle
deriving DecidableEq

/-- Record `Fhe16TernaryOpRequested` of `events.rs`. -/
structure Fhe16TernaryOpRequested where
  caller : Pubkey
  op : Fhe16TernaryOp
  a_handle : Handle
  b_handle : Handle
  c_handle : Handle
  result_handle : Handle
deriving DecidableEq

end HostPrograms

namespace LendingDemo

/-- The 32 bytes of `pubkey!("FkLGYGk2bypUXgpGmcsCTmKZo6LCjHaXswbhY1LNGAKj")`,
the host program id pinned as `HOST_PROGRAM_ID` in the demo (`lib.rs`). -/
def HOST_PROGRAM_ID : Pubkey :=
  [219, 29, 96, 200, 170, 62, 28, 201, 28, 0, 143, 50, 251, 189, 188, 159,
   134, 164, 222, 52, 112, 151, 194, 39, 204, 17, 47, 254, 204, 104, 57, 138]

/-- The demo program's own binary operation enum (`lending-demo/src/lib.rs`),
re-declared locally with only three members and no explicit discriminants. -/
inductive Fhe16BinaryOp
  | Add
  | Sub
  | Ge
deriving DecidableEq, Fintype

/-- The demo program's own ternary operation enum. -/
inductive Fhe16TernaryOp
  | Select
deriving DecidableEq, Fintype

/-- Rust `op as u8` on the demo's `Fhe16BinaryOp`: the positional value of the
local declaration, not the host registry's value. -/
def Fhe16BinaryOp.as_u8 : Fhe16BinaryOp → Nat
  | .Add => 0
  | .Sub => 1
  | .Ge => 2

/-- Rust `op as u8` on the demo's `Fhe16TernaryOp`. -/
def Fhe16TernaryOp.as_u8 : Fhe16TernaryOp → Nat
  | .Select => 0

/-- ASCII bytes of the demo's local `HANDLE_DOMAIN_BINARY` (same string as the
host's). -/
def HANDLE_DOMAIN_BINARY : List Nat :=
  [70, 72, 69, 49, 54, 95, 66, 73, 78, 65, 82, 89, 95, 86, 49]

/-- ASCII bytes of the demo's local `HANDLE_DOMAIN_TERNARY`. -/
def HANDLE_DOMAIN_TERNARY : List Nat :=
  [70, 72, 69, 49, 54, 95, 84, 69, 82, 78, 65, 82, 89, 95, 86, 49]

/-- The demo's local `derive_binary_handle` (`lending-demo/src/lib.rs`). -/
def derive_binary_handle (op : Fhe16BinaryOp) (lhs rhs : Handle) (program_id : Pubkey) :
    Handle :=
  hashv [HANDLE_DOMAIN_BINARY, program_id, [op.as_u8], lhs, rhs]

/-- The demo's local `derive_ternary_handle`. -/
def derive_ternary_handle (op : Fhe16TernaryOp) (a b c : Handle) (program_id : Pubkey) :
    Handle :=
  hashv [HANDLE_DOMAIN_TERNARY, program_id, [op.as_u8], a, b, c]

/-- Record `WithdrawCompleted` of the demo program. -/
structure WithdrawCompleted where
  caller : Pubkey
  usdc_balance : Handle
  withdraw_amount : Handle
  ge_result_handle : Handle
  sub_result_handle : Handle
  final_handle : Handle
deriving DecidableEq

/-- Record `DepositCompleted` of the demo program. -/
structure DepositCompleted where
  caller : Pubkey
  sol_balance : Handle
  deposit_amount : Handle
  final_handle : Handle
deriving DecidableEq

end LendingDemo

/-- A record in the atomic unit's append-only log: any of the six event types
either program can emit. -/
inductive Event
  | inputHandleRegistered (e : HostPrograms.InputHandleRegistered)
  | unaryOpRequested (e : HostPrograms.Fhe16UnaryOpRequested)
  | binaryOpRequested (e : HostPrograms.Fhe16BinaryOpRequested)
  | ternaryOpRequested (e : HostPrograms.Fhe16TernaryOpRequested)
  | withdrawCompleted (e : LendingDemo.WithdrawCompleted)
  | depositCompleted (e : LendingDemo.DepositCompleted)
deriving DecidableEq

/-- Whether a log record is one of the three operation-request records of the
host program's Request layer. -/
def Event.isRequestRecord : Event → Bool
  | .unaryOpRequested _ => true
  | .binaryOpRequested _ => true
  | .ternaryOpRequested _ => true
  | _ => false

/-- The `result_handle` field of a request record, when the record has one. -/
def Event.resultHandle : Event → Option Handle
  | .unaryOpRequested e => some e.result_handle
  | .binaryOpRequested e => some e.result_handle
  | .ternaryOpRequested e => some e.result_handle
  | _ => none

/-- The same record with the caller identity erased, for stating that two
emissions differ in nothing but the caller field. -/
def Event.forgetCaller : Event → Event
  | .inputHandleRegistered e => .inputHandleRegistered ⟨[], e.handle, e.client_tag⟩
  | .unaryOpRequested e => .unaryOpRequested ⟨[], e.op, e.input_handle, e.result_handle⟩
  | .binaryOpRequested e =>
      .binaryOpRequested ⟨[], e.op, e.lhs_handle, e.rhs_handle, e.result_handle⟩
  | .ternaryOpRequested e =>
      .ternaryOpRequested ⟨[], e.op, e.a_handle, e.b_handle, e.c_handle, e.result_handle⟩
  | .withdrawCompleted e =>
      .withdrawCompleted ⟨[], e.usdc_balance, e.withdraw_amount, e.ge_result_handle,
        e.sub_result_handle, e.final_handle⟩
  | .depositCompleted e =>
      .depositCompleted ⟨[], e.sol_balance, e.deposit_amount, e.final_handle⟩

namespace HostPrograms

/-- Entry point `register_input_handle` of `lib.rs`: unconditionally emits one
`InputHandleRegistered` record and succeeds. -/
def register_input_handle (caller : Pubkey) (handle : Handle) (client_tag : List Nat) :
    Except Unit (List Event) :=
  .ok [.inputHandleRegistered ⟨caller, handle, client_tag⟩]

/-- Entry point `request_unary_op` of `lib.rs`: derives the result handle and emits one
`Fhe16UnaryOpRequested` record. -/
def request_unary_op (caller program_id : Pubkey) (op : Fhe16UnaryOp) (input_handle : Handle) :
    Except Unit (List Event) :=
  let result_handle := derive_unary_handle op input_handle program_id
  .ok [.unaryOpRequested ⟨caller, op, input_handle, result_handle⟩]

/-- Entry point `request_binary_op` of `lib.rs`. -/
def request_binary_op (caller program_id : Pubkey) (op : Fhe16BinaryOp)
    (lhs_handle rhs_handle : Handle) : Except Unit (List Event) :=
  let result_handle := derive_binary_handle op lhs_handle rhs_handle program_id
  .ok [.binaryOpRequested ⟨caller, op, lhs_handle, rhs_handle, result_handle⟩]

/-- Entry point `request_ternary_op` of `lib.rs`. -/
def request_ternary_op (caller program_id : Pubkey) (op : Fhe16TernaryOp)
    (a_handle b_handle c_handle : Handle) : Except Unit (List Event) :=
  let result_handle := derive_ternary_handle op a_handle b_handle c_handle program_id
  .ok [.ternaryOpRequested ⟨caller, op, a_handle, b_handle, c_handle, result_handle⟩]

end HostPrograms

namespace LendingDemo

/-- Helper `trigger_binary_cpi` of the demo program: the body only `msg!`-logs the operation
and operands; it performs no CPI into the host program and emits no record. -/
def trigger_binary_cpi (_host_program _caller : Pubkey) (_op : Fhe16BinaryOp)
    (_lhs _rhs : Handle) : Except Unit (List Event) :=
  .ok []

/-- Helper `trigger_ternary_cpi` of the demo program: likewise a log-only stub. -/
def trigger_ternary_cpi (_host_program _caller : Pubkey) (_op : Fhe16TernaryOp)
    (_a _b _c : Handle) : Except Unit (List Event) :=
  .ok []

/-- Entry point `withdraw` of the demo program. The `LendingDemo` accounts context constrains the
`host_programs` account to `HOST_PROGRAM_ID` (`#[account(address = ...)]`),
modelled as the leading guard; the body chains Ge, Sub, Select derivations and
emits the `WithdrawCompleted` record. -/
def withdraw (caller host_programs : Pubkey) (usdc_balance withdraw_amount : Handle) :
    Except Unit (List Event) :=
  if host_programs = HOST_PROGRAM_ID then do
    let ge_handle := derive_binary_handle .Ge usdc_balance withdraw_amount host_programs
    let ev₁ ← trigger_binary_cpi host_programs caller .Ge usdc_balance withdraw_amount
    let sub_handle := derive_binary_handle .Sub usdc_balance withdraw_amount host_programs
    let ev₂ ← trigger_binary_cpi host_programs caller .Sub usdc_balance withdraw_amount
    let final_handle :=
      derive_ternary_handle .Select ge_handle sub_handle usdc_balance host_programs
    let ev₃ ← trigger_ternary_cpi host_programs caller .Select ge_handle sub_handle usdc_balance
    pure (ev₁ ++ ev₂ ++ ev₃ ++
      [.withdrawCompleted
        ⟨caller, usdc_balance, withdraw_amount, ge_handle, sub_handle, final_handle⟩])
  else
    .error ()

/-- Entry point `deposit` of the demo program. -/
def deposit (caller host_programs : Pubkey) (sol_balance deposit_amount : Handle) :
    Except Unit (List Event) :=
  if host_programs = HOST_PROGRAM_ID then do
    let final_handle := derive_binary_handle .Add sol_balance deposit_amount host_programs
    let ev₁ ← trigger_binary_cpi host_programs caller .Add sol_balance deposit_amount
    pure (ev₁ ++ [.depositCompleted ⟨caller, sol_balance, deposit_amount, final_handle⟩])
  else
    .error ()

/-- The `WithdrawCompleted` record of a `withdraw` invocation, when the
invocation succeeds and emits exactly one such record. -/
def withdrawRecord (caller host_programs : Pubkey) (usdc_balance withdraw_amount : Handle) :
    Option WithdrawCompleted :=
  match withdraw caller host_programs usdc_balance withdraw_amount with
  | .ok evs =>
      match evs.filterMap (fun e =>
          match e with
          | .withdrawCompleted r => some r
          | _ => none) with
      | [r] => some r
      | _ => none
  | .error _ => none

end LendingDemo

/-- The all-zero 32-byte handle, a concrete test input. -/
def zero32 : Handle := List.replicate 32 0

/-- A concrete caller address for test inputs. -/
def onePk : Pubkey := List.replicate 32 1

/-- Known-answer test pinning the hash embedding: SHA-256 of the empty string. -/
theorem sha256_empty_vector : Sha256.sha256 [] =
    [0xe3, 0xb0, 0xc4, 0x42, 0x98, 0xfc, 0x1c, 0x14, 0x9a, 0xfb, 0xf4, 0xc8, 0x99, 0x6f, 0xb9,
     0x24, 0x27, 0xae, 0x41, 0xe4, 0x64, 0x9b, 0x93, 0x4c, 0xa4, 0x95, 0x99, 0x1b, 0x78, 0x52,
     0xb8, 0x55] := by decide

/-- Known-answer test pinning the hash embedding: SHA-256 of `"abc"`. -/
theorem sha256_abc_vector : Sha256.sha256 [97, 98, 99] =
    [0xba, 0x78, 0x16, 0xbf, 0x8f, 0x01, 0xcf, 0xea, 0x41, 0x41, 0x40, 0xde, 0x5d, 0xae, 0x22,
     0x23, 0xb0, 0x03, 0x61, 0xa3, 0x96, 0x17, 0x7a, 0x9c, 0xb4, 0x10, 0xff, 0x61, 0xf2, 0x00,
     0x15, 0xad] := by decide

/-- A unary derivation is the SHA-256 of its concatenated message. -/
theorem HostPrograms.derive_unary_handle_eq (op : HostPrograms.Fhe16UnaryOp) (i : Handle)
    (p : Pubkey) :
    HostPrograms.derive_unary_handle op i p =
      Sha256.sha256 (HostPrograms.derive_unary_message op i p) := by
  simp [HostPrograms.derive_unary_handle, HostPrograms.derive_unary_message, hashv]

/-- A binary derivation is the SHA-256 of its concatenated message. -/
theorem HostPrograms.derive_binary_handle_eq (op : HostPrograms.Fhe16BinaryOp) (l r : Handle)
    (p : Pubkey) :
    HostPrograms.derive_binary_handle op l r p =
      Sha256.sha256 (HostPrograms.derive_binary_message op l r p) := by
  simp [HostPrograms.derive_binary_handle, HostPrograms.derive_binary_message, hashv]

/-- A ternary derivation is the SHA-256 of its concatenated message. -/
theorem HostPrograms.derive_ternary_handle_eq (op : HostPrograms.Fhe16TernaryOp)
    (a b c : Handle) (p : Pubkey) :
    HostPrograms.derive_ternary_handle op a b c p =
      Sha256.sha256 (HostPrograms.derive_ternary_message op a b c p) := by
  simp [HostPrograms.derive_ternary_handle, HostPrograms.derive_ternary_message, hashv]

/-- Length of the unary hash input: 14-byte tag, namespace, 1 op byte, operand. -/
theorem HostPrograms.derive_unary_message_length (op : HostPrograms.Fhe16UnaryOp) (i : Handle)
    (p : Pubkey) :
    (HostPrograms.derive_unary_message op i p).length = 15 + p.length + i.length := by
  simp [HostPrograms.derive_unary_message, HostPrograms.HANDLE_DOMAIN_UNARY]
  omega

/-- Length of the binary hash input: 15-byte tag, namespace, 1 op byte, operands. -/
theorem HostPrograms.derive_binary_message_length (op : HostPrograms.Fhe16BinaryOp)
    (l r : Handle) (p : Pubkey) :
    (HostPrograms.derive_binary_message op l r p).length = 16 + p.length + l.length + r.length := by
  simp [HostPrograms.derive_binary_message, HostPrograms.HANDLE_DOMAIN_BINARY]
  omega

/-- Length of the ternary hash input: 16-byte tag, namespace, 1 op byte, operands. -/
theorem HostPrograms.derive_ternary_message_length (op : HostPrograms.Fhe16TernaryOp)
    (a b c : Handle) (p : Pubkey) :
    (HostPrograms.derive_ternary_message op a b c p).length =
      17 + p.length + a.length + b.length + c.length := by
  simp [HostPrograms.derive_ternary_message, HostPrograms.HANDLE_DOMAIN_TERNARY]
  omega

/-- The positional cast of the unary registry is injective. -/
theorem HostPrograms.unary_as_u8_injective (o₁ o₂ : HostPrograms.Fhe16UnaryOp)
    (h : o₁.as_u8 = o₂.as_u8) : o₁ = o₂ := by
  revert h
  revert o₂
  revert o₁
  decide

/-- The positional cast of the binary registry is injective. -/
theorem HostPrograms.binary_as_u8_injective (o₁ o₂ : HostPrograms.Fhe16BinaryOp)
    (h : o₁.as_u8 = o₂.as_u8) : o₁ = o₂ := by
  revert h
  revert o₂
  revert o₁
  decide

/-- The positional cast of the ternary registry is injective. -/
theorem HostPrograms.ternary_as_u8_injective (o₁ o₂ : HostPrograms.Fhe16TernaryOp)
    (h : o₁.as_u8 = o₂.as_u8) : o₁ = o₂ := by
  revert h
  revert o₂
  revert o₁
  decide

set_option maxRecDepth 100000 in
/-- C1: the claim fails on the code at a concrete input. The `WithdrawCompleted`
record emitted by `withdraw(B, A)` carries a `ge_result_handle` computed with
the demo's locally re-declared discriminant (`Ge = 2`), which differs from the
handle recomputed with the registry-assigned discriminant of the host
operation catalog (`Ge = 9`) under the host program's namespace. -/
theorem claim1_counterexample :
    (LendingDemo.withdrawRecord onePk LendingDemo.HOST_PROGRAM_ID zero32 zero32).map
        (fun r => r.ge_result_handle) ≠
      some (HostPrograms.derive_binary_handle .Ge zero32 zero32 LendingDemo.HOST_PROGRAM_ID) := by
  decide

/-- C1 (amended): for every balance handle `B` and amount handle `A`, the
`WithdrawCompleted` record emitted by `withdraw(B, A)` embeds exactly the
handles obtained by independent recomputation with the workflow layer's own
locally assigned discriminants (`Ge = 2`, `Sub = 1`, `Select = 0`):
`ge_result_handle = derive_binary(Ge, B, A)`,
`sub_result_handle = derive_binary(Sub, B, A)` and
`final_handle = derive_ternary(Select, ge, sub, B)`, all under the host
program's namespace. -/
theorem claim1_graph_reconstruction_local (caller : Pubkey) (B A : Handle) :
    LendingDemo.withdrawRecord caller LendingDemo.HOST_PROGRAM_ID B A =
      some ⟨caller, B, A,
        LendingDemo.derive_binary_handle .Ge B A LendingDemo.HOST_PROGRAM_ID,
        LendingDemo.derive_binary_handle .Sub B A LendingDemo.HOST_PROGRAM_ID,
        LendingDemo.derive_ternary_handle .Select
          (LendingDemo.derive_binary_handle .Ge B A LendingDemo.HOST_PROGRAM_ID)
          (LendingDemo.derive_binary_handle .Sub B A LendingDemo.HOST_PROGRAM_ID)
          B LendingDemo.HOST_PROGRAM_ID⟩ := by
  rfl

set_option maxRecDepth 100000 in
/-- C2: the code violates the pinned-discriminant contract. No enum in either
program pins discriminants explicitly, and the same-named operations disagree
across the two programs: the demo's `Add` casts to byte 0 while the host
registry's `Add` casts to byte 3, so the two `derive_binary_handle` functions
return different handles on identical operands and namespace. -/
theorem claim2_discriminant_divergence :
    LendingDemo.Fhe16BinaryOp.Add.as_u8 = 0 ∧
    HostPrograms.Fhe16BinaryOp.Add.as_u8 = 3 ∧
    LendingDemo.derive_binary_handle .Add zero32 zero32 LendingDemo.HOST_PROGRAM_ID ≠
      HostPrograms.derive_binary_handle .Add zero32 zero32 LendingDemo.HOST_PROGRAM_ID := by
  refine ⟨rfl, rfl, ?_⟩
  decide

/-- C3: the code violates the claim. `trigger_binary_cpi` and
`trigger_ternary_cpi` only log a message and emit no record, so a `withdraw`
invocation emits exactly one record — the `WithdrawCompleted` record — and
zero operation-request records, instead of the claimed three `Ge`, `Sub`,
`Select` request records plus the completion record. -/
theorem claim3_no_request_records (caller : Pubkey) (B A : Handle) :
    LendingDemo.trigger_binary_cpi LendingDemo.HOST_PROGRAM_ID caller .Ge B A = .ok [] ∧
    LendingDemo.trigger_ternary_cpi LendingDemo.HOST_PROGRAM_ID caller .Select B B A = .ok [] ∧
    (LendingDemo.withdraw caller LendingDemo.HOST_PROGRAM_ID B A).map
        (fun evs => (evs.length, evs.countP Event.isRequestRecord)) = .ok (1, 0) := by
  exact ⟨rfl, rfl, rfl⟩

/-- C4: for every namespace `program_id` and 32-byte handles `X`, `Y`,
`request_binary_op(Add, X, Y)` emits one record whose `result_handle` is the
SHA-256 of `"FHE16_BINARY_V1" || program_id || 3 || X || Y`, where 3 is the
registry-assigned `Add` discriminant byte. -/
theorem claim4_reference_vector (caller program_id : Pubkey) (X Y : Handle) :
    HostPrograms.request_binary_op caller program_id .Add X Y =
      .ok [.binaryOpRequested ⟨caller, .Add, X, Y,
        Sha256.sha256 (HostPrograms.HANDLE_DOMAIN_BINARY ++ program_id ++ [3] ++ X ++ Y)⟩] ∧
    HostPrograms.Fhe16BinaryOp.Add.serialize_byte = 3 := by
  constructor
  · simp [HostPrograms.request_binary_op, HostPrograms.derive_binary_handle, hashv,
      HostPrograms.Fhe16BinaryOp.as_u8]
  · rfl

/-- C5: handle derivation is deterministic and pure — two calls of
`derive_unary_handle`, `derive_binary_handle` or `derive_ternary_handle` with
identical arguments return identical 32-byte outputs; the embedding of the
derivation is a pure function, so there is no observable side effect. -/
theorem claim5_determinism (ou₁ ou₂ : HostPrograms.Fhe16UnaryOp)
    (ob₁ ob₂ : HostPrograms.Fhe16BinaryOp) (ot₁ ot₂ : HostPrograms.Fhe16TernaryOp)
    (i₁ i₂ l₁ l₂ r₁ r₂ a₁ a₂ b₁ b₂ c₁ c₂ : Handle) (p₁ p₂ : Pubkey)
    (hou : ou₁ = ou₂) (hob : ob₁ = ob₂) (hot : ot₁ = ot₂)
    (hi : i₁ = i₂) (hl : l₁ = l₂) (hr : r₁ = r₂)
    (ha : a₁ = a₂) (hb : b₁ = b₂) (hc : c₁ = c₂) (hp : p₁ = p₂) :
    HostPrograms.derive_unary_handle ou₁ i₁ p₁ = HostPrograms.derive_unary_handle ou₂ i₂ p₂ ∧
    HostPrograms.derive_binary_handle ob₁ l₁ r₁ p₁ =
      HostPrograms.derive_binary_handle ob₂ l₂ r₂ p₂ ∧
    HostPrograms.derive_ternary_handle ot₁ a₁ b₁ c₁ p₁ =
      HostPrograms.derive_ternary_handle ot₂ a₂ b₂ c₂ p₂ := by
  subst hou hob hot hi hl hr ha hb hc hp
  exact ⟨rfl, rfl, rfl⟩

/-- C5 witness: the determinism theorem applied at a concrete input. -/
theorem claim5_witness :
    HostPrograms.derive_unary_handle .Not zero32 onePk =
      HostPrograms.derive_unary_handle .Not zero32 onePk ∧
    HostPrograms.derive_binary_handle .Add zero32 zero32 onePk =
      HostPrograms.derive_binary_handle .Add zero32 zero32 onePk ∧
    HostPrograms.derive_ternary_handle .Select zero32 zero32 zero32 onePk =
      HostPrograms.derive_ternary_handle .Select zero32 zero32 zero32 onePk :=
  claim5_determinism .Not .Not .Add .Add .Select .Select zero32 zero32 zero32 zero32
    zero32 zero32 zero32 zero32 zero32 zero32 zero32 zero32 onePk onePk
    rfl rfl rfl rfl rfl rfl rfl rfl rfl rfl

/-- C6: arity isolation. For 32-byte namespaces and operands, the unary,
binary and ternary concatenated hash inputs are pairwise distinct byte
strings (the domain tags differ), so equal handles across arities would
exhibit a SHA-256 collision. -/
theorem claim6_arity_isolation (ou : HostPrograms.Fhe16UnaryOp)
    (ob : HostPrograms.Fhe16BinaryOp) (ot : HostPrograms.Fhe16TernaryOp)
    (p₁ p₂ p₃ : Pubkey) (i l r a b c : Handle)
    (hp₁ : p₁.length = 32) (hp₂ : p₂.length = 32) (hp₃ : p₃.length = 32)
    (hi : i.length = 32) (hl : l.length = 32) (hr : r.length = 32)
    (ha : a.length = 32) (hb : b.length = 32) (hc : c.length = 32) :
    HostPrograms.derive_unary_message ou i p₁ ≠ HostPrograms.derive_binary_message ob l r p₂ ∧
    HostPrograms.derive_unary_message ou i p₁ ≠
      HostPrograms.derive_ternary_message ot a b c p₃ ∧
    HostPrograms.derive_binary_message ob l r p₂ ≠
      HostPrograms.derive_ternary_message ot a b c p₃ ∧
    (HostPrograms.derive_unary_handle ou i p₁ = HostPrograms.derive_binary_handle ob l r p₂ →
      ∃ m₁ m₂, m₁ ≠ m₂ ∧ Sha256.sha256 m₁ = Sha256.sha256 m₂) ∧
    (HostPrograms.derive_unary_handle ou i p₁ =
        HostPrograms.derive_ternary_handle ot a b c p₃ →
      ∃ m₁ m₂, m₁ ≠ m₂ ∧ Sha256.sha256 m₁ = Sha256.sha256 m₂) ∧
    (HostPrograms.derive_binary_handle ob l r p₂ =
        HostPrograms.derive_ternary_handle ot a b c p₃ →
      ∃ m₁ m₂, m₁ ≠ m₂ ∧ Sha256.sha256 m₁ = Sha256.sha256 m₂) := by
  have hub : HostPrograms.derive_unary_message ou i p₁ ≠
      HostPrograms.derive_binary_message ob l r p₂ := by
    intro h
    have := congrArg List.length h
    rw [HostPrograms.derive_unary_message_length, HostPrograms.derive_binary_message_length]
      at this
    omega
  have hut : HostPrograms.derive_unary_message ou i p₁ ≠
      HostPrograms.derive_ternary_message ot a b c p₃ := by
    intro h
    have := congrArg List.length h
    rw [HostPrograms.derive_unary_message_length, HostPrograms.derive_ternary_message_length]
      at this
    omega
  have hbt : HostPrograms.derive_binary_message ob l r p₂ ≠
      HostPrograms.derive_ternary_message ot a b c p₃ := by
    intro h
    have := congrArg List.length h
    rw [HostPrograms.derive_binary_message_length, HostPrograms.derive_ternary_message_length]
      at this
    omega
  refine ⟨hub, hut, hbt, fun h => ⟨_, _, hub, ?_⟩, fun h => ⟨_, _, hut, ?_⟩,
    fun h => ⟨_, _, hbt, ?_⟩⟩
  · rw [← HostPrograms.derive_unary_handle_eq, ← HostPrograms.derive_binary_handle_eq]
    exact h
  · rw [← HostPrograms.derive_unary_handle_eq, ← HostPrograms.derive_ternary_handle_eq]
    exact h
  · rw [← HostPrograms.derive_binary_handle_eq, ← HostPrograms.derive_ternary_handle_eq]
    exact h

/-- C6 witness: arity isolation applied at concrete 32-byte inputs. -/
theorem claim6_witness :
    HostPrograms.derive_unary_message .Not zero32 onePk ≠
      HostPrograms.derive_binary_message .Add zero32 zero32 onePk ∧
    HostPrograms.derive_unary_message .Not zero32 onePk ≠
      HostPrograms.derive_ternary_message .Select zero32 zero32 zero32 onePk ∧
    HostPrograms.derive_binary_message .Add zero32 zero32 onePk ≠
      HostPrograms.derive_ternary_message .Select zero32 zero32 zero32 onePk ∧
    (HostPrograms.derive_unary_handle .Not zero32 onePk =
        HostPrograms.derive_binary_handle .Add zero32 zero32 onePk →
      ∃ m₁ m₂, m₁ ≠ m₂ ∧ Sha256.sha256 m₁ = Sha256.sha256 m₂) ∧
    (HostPrograms.derive_unary_handle .Not zero32 onePk =
        HostPrograms.derive_ternary_handle .Select zero32 zero32 zero32 onePk →
      ∃ m₁ m₂, m₁ ≠ m₂ ∧ Sha256.sha256 m₁ = Sha256.sha256 m₂) ∧
    (HostPrograms.derive_binary_handle .Add zero32 zero32 onePk =
        HostPrograms.derive_ternary_handle .Select zero32 zero32 zero32 onePk →
      ∃ m₁ m₂, m₁ ≠ m₂ ∧ Sha256.sha256 m₁ = Sha256.sha256 m₂) :=
  claim6_arity_isolation .Not .Add .Select onePk onePk onePk
    zero32 zero32 zero32 zero32 zero32 zero32
    rfl rfl rfl rfl rfl rfl rfl rfl rfl

/-- C7: within the binary arity (and likewise unary and ternary), the mapping
from (namespace, operation code, ordered operand handles) to the concatenated
hash input is injective for 32-byte namespaces and operands: equal hash inputs
force equal namespaces, equal operation codes and equal operands in order, so
any single-byte flip, operation change, namespace change or operand reorder
(of unequal operands) yields a distinct hash input and hence a distinct
derived handle barring a hash collision. -/
theorem claim7_hash_input_injective :
    (∀ (op₁ op₂ : HostPrograms.Fhe16UnaryOp) (i₁ i₂ : Handle) (p₁ p₂ : Pubkey),
      p₁.length = 32 → p₂.length = 32 →
      HostPrograms.derive_unary_message op₁ i₁ p₁ =
        HostPrograms.derive_unary_message op₂ i₂ p₂ →
      p₁ = p₂ ∧ op₁ = op₂ ∧ i₁ = i₂) ∧
    (∀ (op₁ op₂ : HostPrograms.Fhe16BinaryOp) (l₁ r₁ l₂ r₂ : Handle) (p₁ p₂ : Pubkey),
      p₁.length = 32 → p₂.length = 32 → l₁.length = 32 → l₂.length = 32 →
      HostPrograms.derive_binary_message op₁ l₁ r₁ p₁ =
        HostPrograms.derive_binary_message op₂ l₂ r₂ p₂ →
      p₁ = p₂ ∧ op₁ = op₂ ∧ l₁ = l₂ ∧ r₁ = r₂) ∧
    (∀ (op₁ op₂ : HostPrograms.Fhe16TernaryOp) (a₁ b₁ c₁ a₂ b₂ c₂ : Handle) (p₁ p₂ : Pubkey),
      p₁.length = 32 → p₂.length = 32 → a₁.length = 32 → a₂.length = 32 →
      b₁.length = 32 → b₂.length = 32 →
      HostPrograms.derive_ternary_message op₁ a₁ b₁ c₁ p₁ =
        HostPrograms.derive_ternary_message op₂ a₂ b₂ c₂ p₂ →
      p₁ = p₂ ∧ op₁ = op₂ ∧ a₁ = a₂ ∧ b₁ = b₂ ∧ c₁ = c₂) := by
  refine ⟨?_, ?_, ?_⟩
  · intro op₁ op₂ i₁ i₂ p₁ p₂ hp₁ hp₂ h
    simp only [HostPrograms.derive_unary_message, List.append_assoc] at h
    have h₁ := List.append_cancel_left h
    obtain ⟨hpe, h₂⟩ := List.append_inj h₁ (hp₁.trans hp₂.symm)
    simp only [List.singleton_append, List.cons.injEq] at h₂
    exact ⟨hpe, HostPrograms.unary_as_u8_injective _ _ h₂.1, h₂.2⟩
  · intro op₁ op₂ l₁ r₁ l₂ r₂ p₁ p₂ hp₁ hp₂ hl₁ hl₂ h
    simp only [HostPrograms.derive_binary_message, List.append_assoc] at h
    have h₁ := List.append_cancel_left h
    obtain ⟨hpe, h₂⟩ := List.append_inj h₁ (hp₁.trans hp₂.symm)
    simp only [List.singleton_append, List.cons.injEq] at h₂
    obtain ⟨hop, h₃⟩ := h₂
    obtain ⟨hle, hre⟩ := List.append_inj h₃ (hl₁.trans hl₂.symm)
    exact ⟨hpe, HostPrograms.binary_as_u8_injective _ _ hop, hle, hre⟩
  · intro op₁ op₂ a₁ b₁ c₁ a₂ b₂ c₂ p₁ p₂ hp₁ hp₂ ha₁ ha₂ hb₁ hb₂ h
    simp only [HostPrograms.derive_ternary_message, List.append_assoc] at h
    have h₁ := List.append_cancel_left h
    obtain ⟨hpe, h₂⟩ := List.append_inj h₁ (hp₁.trans hp₂.symm)
    simp only [List.singleton_append, List.cons.injEq] at h₂
    obtain ⟨hop, h₃⟩ := h₂
    obtain ⟨hae, h₄⟩ := List.append_inj h₃ (ha₁.trans ha₂.symm)
    obtain ⟨hbe, hce⟩ := List.append_inj h₄ (hb₁.trans hb₂.symm)
    exact ⟨hpe, HostPrograms.ternary_as_u8_injective _ _ hop, hae, hbe, hce⟩

/-- C7 witness: the injectivity theorem applied at a concrete input, each
length hypothesis and the hash-input equality discharged there. -/
theorem claim7_witness :
    (onePk = onePk ∧ HostPrograms.Fhe16UnaryOp.Not = HostPrograms.Fhe16UnaryOp.Not ∧
      zero32 = zero32) ∧
    (onePk = onePk ∧ HostPrograms.Fhe16BinaryOp.Add = HostPrograms.Fhe16BinaryOp.Add ∧
      zero32 = zero32 ∧ zero32 = zero32) ∧
    (onePk = onePk ∧ HostPrograms.Fhe16TernaryOp.Select = HostPrograms.Fhe16TernaryOp.Select ∧
      zero32 = zero32 ∧ zero32 = zero32 ∧ zero32 = zero32) :=
  ⟨claim7_hash_input_injective.1 _ _ _ _ _ _ rfl rfl rfl,
   claim7_hash_input_injective.2.1 _ _ _ _ _ _ _ _ rfl rfl rfl rfl rfl,
   claim7_hash_input_injective.2.2 _ _ _ _ _ _ _ _ _ _ rfl rfl rfl rfl rfl rfl rfl⟩

/-- C8: for every member of the unary, binary and ternary operation catalogs,
serializing and deserializing the discriminant byte returns the same member,
and the serialized byte equals the byte hashed in derivation (`op as u8`). -/
theorem claim8_discriminant_roundtrip :
    (∀ op : HostPrograms.Fhe16UnaryOp,
      HostPrograms.Fhe16UnaryOp.deserialize_byte op.serialize_byte = some op ∧
      op.serialize_byte = op.as_u8) ∧
    (∀ op : HostPrograms.Fhe16BinaryOp,
      HostPrograms.Fhe16BinaryOp.deserialize_byte op.serialize_byte = some op ∧
      op.serialize_byte = op.as_u8) ∧
    (∀ op : HostPrograms.Fhe16TernaryOp,
      HostPrograms.Fhe16TernaryOp.deserialize_byte op.serialize_byte = some op ∧
      op.serialize_byte = op.as_u8) := by
  decide

/-- C9: the four Request-layer entry points succeed on every input — in
particular `register_input_handle` accepts any handle without validation —
and each invocation emits exactly the one record of its kind, the embedding
touching no state beyond the returned record list. -/
theorem claim9_total_one_record (caller program_id : Pubkey) (handle : Handle)
    (client_tag : List Nat) (ou : HostPrograms.Fhe16UnaryOp) (ob : HostPrograms.Fhe16BinaryOp)
    (ot : HostPrograms.Fhe16TernaryOp) (i l r a b c : Handle) :
    HostPrograms.register_input_handle caller handle client_tag =
      .ok [.inputHandleRegistered ⟨caller, handle, client_tag⟩] ∧
    HostPrograms.request_unary_op caller program_id ou i =
      .ok [.unaryOpRequested ⟨caller, ou, i, HostPrograms.derive_unary_handle ou i program_id⟩] ∧
    HostPrograms.request_binary_op caller program_id ob l r =
      .ok [.binaryOpRequested ⟨caller, ob, l, r,
        HostPrograms.derive_binary_handle ob l r program_id⟩] ∧
    HostPrograms.request_ternary_op caller program_id ot a b c =
      .ok [.ternaryOpRequested ⟨caller, ot, a, b, c,
        HostPrograms.derive_ternary_handle ot a b c program_id⟩] :=
  ⟨rfl, rfl, rfl, rfl⟩

/-- C10: the derived result handle is caller-independent. Two invocations of
any request entry point under the same program id with different callers emit
records with equal `result_handle` fields, and the records are equal once the
caller field is erased. -/
theorem claim10_caller_independence (c₁ c₂ program_id : Pubkey)
    (ou : HostPrograms.Fhe16UnaryOp) (ob : HostPrograms.Fhe16BinaryOp)
    (ot : HostPrograms.Fhe16TernaryOp) (i l r a b c : Handle) :
    (HostPrograms.request_unary_op c₁ program_id ou i).map
        (List.filterMap Event.resultHandle) =
      (HostPrograms.request_unary_op c₂ program_id ou i).map
        (List.filterMap Event.resultHandle) ∧
    (HostPrograms.request_binary_op c₁ program_id ob l r).map
        (List.filterMap Event.resultHandle) =
      (HostPrograms.request_binary_op c₂ program_id ob l r).map
        (List.filterMap Event.resultHandle) ∧
    (HostPrograms.request_ternary_op c₁ program_id ot a b c).map
        (List.filterMap Event.resultHandle) =
      (HostPrograms.request_ternary_op c₂ program_id ot a b c).map
        (List.filterMap Event.resultHandle) ∧
    (HostPrograms.request_unary_op c₁ program_id ou i).map (List.map Event.forgetCaller) =
      (HostPrograms.request_unary_op c₂ program_id ou i).map (List.map Event.forgetCaller) ∧
    (HostPrograms.request_binary_op c₁ program_id ob l r).map (List.map Event.forgetCaller) =
      (HostPrograms.request_binary_op c₂ program_id ob l r).map (List.map Event.forgetCaller) ∧
    (HostPrograms.request_ternary_op c₁ program_id ot a b c).map
        (List.map Event.forgetCaller) =
      (HostPrograms.request_ternary_op c₂ program_id ot a b c).map
        (List.map Event.forgetCaller) :=
  ⟨rfl, rfl, rfl, rfl, rfl, rfl⟩
